import Mathlib

/-!
Verification development for the UnwrittenAR capture core.

Shallow embedding of:
* the unified recorder component (src/unnamed/part_001): `pickMimeType`,
  `resetRecording`, `start`, `pause`, `resume`, `stop`, the interval tick
  callback, the `ondataavailable` / `onstop` handlers, and the unmount
  cleanup effect;
* the QR recognition loop (src/unnamed/part_002 and src/src/App.jsx, the
  SCAN effect): acquisition, the per-frame `loop` body, the deferred
  redirect `setTimeout`, and the effect cleanup.

Device streams are modelled as a world-level list of live flags: index
`i` is an allocated stream, `true` while its tracks are live; stopping
every track of a stream sets its flag to `false` (idempotent, like
`track.stop()`).  React state updates are modelled as immediate field
updates of one component-state record; the single place where React's
closure-capture semantics is observable — the interval callback created
in `start`, which closes over the `isPaused` binding of the render that
created `start` — is modelled explicitly by storing that captured value
in the timer (`timerCaptured`).
-/

/-- Capture kind, the component's `mode` state ("audio" | "video"). -/
inductive Mode where
  | audio
  | video
deriving DecidableEq

/-- One binary fragment delivered by the recorder (a `dataavailable` blob);
`data.length` plays the role of `e.data.size`. -/
structure Chunk where
  data : List Nat
deriving DecidableEq

/-- A finished blob: mime tag plus payload bytes. -/
structure Artifact where
  mimeType : String
  payload : List Nat
deriving DecidableEq

/-- The `MediaRecorder.state` values. -/
inductive MRState where
  | recording
  | paused
  | inactive
deriving DecidableEq

/-- The runtime facts `pickMimeType` consults: whether `window.MediaRecorder`
exists, and the truthiness of `MediaRecorder.isTypeSupported?.(t)`. -/
structure Runtime where
  hasMediaRecorder : Bool
  isTypeSupported : String → Bool

/-- Candidate list for video mode, in source order. -/
def videoCandidates : List String :=
  ["video/webm;codecs=vp9,opus", "video/webm;codecs=vp8,opus", "video/webm"]

/-- Candidate list for audio mode, in source order. -/
def audioCandidates : List String :=
  ["audio/webm;codecs=opus", "audio/webm"]

/-- The ordered preference list chosen in `pickMimeType`. -/
def candidatesFor (kind : Mode) : List String :=
  if kind = Mode.video then videoCandidates else audioCandidates

/-- `pickMimeType` (part_001 lines 22-35): walk the candidates, return the
first one the runtime reports as supported, else `undefined` (`none`). -/
def pickMimeType (rt : Runtime) (kind : Mode) : Option String :=
  (candidatesFor kind).find? (fun t => rt.hasMediaRecorder && rt.isTypeSupported t)

/-- Set every track of stream `i` to stopped.  Out-of-range indices leave
the world unchanged (`List.set` semantics); stopping twice is a no-op. -/
def releaseStream (streams : List Bool) (i : Nat) : List Bool :=
  streams.set i false

/-- Component state of the unified recorder (part_001), together with the
world of allocated device streams.  Fields mirror the refs and state
hooks: `mediaRecorderRef` (with its `state`), the `mimeType` passed to
the constructor, `chunksRef`, `streamRef` (an index into `streams`),
`mode`, `isRecording`, `isPaused`, `seconds`, the finished `blob`, the
interval timer (`timerCaptured = some v` means the interval is armed and
its callback closed over `isPaused = v`), and the live-preview
`srcObject`. -/
structure RecState where
  streams : List Bool
  mediaRecorder : Option MRState
  mrMimeArg : Option String
  chunks : List Chunk
  streamRef : Option Nat
  mode : Mode
  isRecording : Bool
  isPaused : Bool
  seconds : Nat
  blob : Option Artifact
  timerCaptured : Option Bool
  liveVideoSrc : Option Nat
deriving DecidableEq

/-- Fresh component state (initial hook values) for a given mode. -/
def recInit (m : Mode) : RecState :=
  { streams := [], mediaRecorder := none, mrMimeArg := none, chunks := [],
    streamRef := none, mode := m, isRecording := false, isPaused := false,
    seconds := 0, blob := none, timerCaptured := none, liveVideoSrc := none }

/-- `resetRecording` (part_001 lines 37-43): clears the blob, zeroes the
clock, unpauses.  (Blob-URL revocation has no observable state here.) -/
def resetRecording (s : RecState) : RecState :=
  { s with blob := none, seconds := 0, isPaused := false }

/-- The `ondataavailable` handler body (part_001 lines 66-68): push the
chunk iff its size is positive. -/
def handleData (c : Chunk) (s : RecState) : RecState :=
  if 0 < c.data.length then { s with chunks := s.chunks ++ [c] } else s

/-- The `onstop` handler (part_001 lines 69-74): build the blob from the
accumulated chunks, tagged `video/webm` or `audio/webm` by mode. -/
def onstopHandler (s : RecState) : RecState :=
  let ty := if s.mode = Mode.video then "video/webm" else "audio/webm"
  { s with blob := some ⟨ty, (s.chunks.map Chunk.data).flatten⟩ }

/-- Effect of `mediaRecorderRef.current.stop()`: the recorder goes
inactive, a final `dataavailable` flush (possibly empty) is delivered to
the registered handler, then `onstop` fires. -/
def mrStop (flush : Option Chunk) (s : RecState) : RecState :=
  let s1 := { s with mediaRecorder := some MRState.inactive }
  let s2 := match flush with
    | some c => handleData c s1
    | none => s1
  onstopHandler s2

/-- `start` (part_001 lines 45-86), with the two fallible platform calls
decided by oracles: `gumOk` is `getUserMedia` resolving, `ctorOk` is
`new MediaRecorder(...)` plus `mr.start(250)` not throwing.  On either
failure the `catch` only alerts — note that when `ctorOk` is false the
already-acquired stream is left untouched.  The interval callback
registered on success closes over the `isPaused` binding of the render
that created `start`, i.e. the value held before this handler ran; that
captured value is stored in `timerCaptured`.  The live-preview `play()`
is modelled as succeeding and `liveVideoRef` as mounted. -/
def start (rt : Runtime) (gumOk ctorOk : Bool) (s0 : RecState) : RecState :=
  let s := resetRecording s0
  if gumOk then
    let id := s.streams.length
    let s := { s with streams := s.streams ++ [true], streamRef := some id }
    let s := if s.mode = Mode.video then { s with liveVideoSrc := some id } else s
    let mime := pickMimeType rt s.mode
    if ctorOk then
      { s with mediaRecorder := some MRState.recording, mrMimeArg := mime,
               chunks := [], isRecording := true, isPaused := false,
               seconds := 0, timerCaptured := some s0.isPaused }
    else s
  else s

/-- One firing of the interval callback (part_001 lines 80-82):
`setSeconds(s => capturedIsPaused ? s : s + 1)` with the closure-captured
pause flag. -/
def tick (s : RecState) : RecState :=
  match s.timerCaptured with
  | none => s
  | some captured =>
      { s with seconds := if captured then s.seconds else s.seconds + 1 }

/-- A timeslice `dataavailable` delivery: the recorder emits data only
while recording; the registered handler then filters empty chunks. -/
def dataAvailable (c : Chunk) (s : RecState) : RecState :=
  if s.mediaRecorder = some MRState.recording then handleData c s else s

/-- `pause` (part_001 lines 88-94): no-op without a recorder or when its
state is not "recording"; otherwise pause it and set the flag. -/
def pause (s : RecState) : RecState :=
  match s.mediaRecorder with
  | none => s
  | some st =>
      if st = MRState.recording then
        { s with mediaRecorder := some MRState.paused, isPaused := true }
      else s

/-- `resume` (part_001 lines 96-102): dual of `pause`. -/
def resume (s : RecState) : RecState :=
  match s.mediaRecorder with
  | none => s
  | some st =>
      if st = MRState.paused then
        { s with mediaRecorder := some MRState.recording, isPaused := false }
      else s

/-- `stop` (part_001 lines 104-127): stop the recorder when one exists and
`isRecording` holds (delivering the final flush and firing `onstop`), then
the `finally` block: clear the flags and the interval, stop every track of
the referenced stream and null the ref, detach the live preview. -/
def stop (flush : Option Chunk) (s : RecState) : RecState :=
  let s1 := if s.mediaRecorder.isSome && s.isRecording then mrStop flush s else s
  let s2 := { s1 with isRecording := false, isPaused := false, timerCaptured := none }
  let s3 := match s2.streamRef with
    | some i => { s2 with streams := releaseStream s2.streams i, streamRef := none }
    | none => s2
  { s3 with liveVideoSrc := none }

/-- The unmount cleanup (part_001 lines 129-153): clear the interval, stop
the recorder when its state is not "inactive" (final flush + `onstop`),
stop every track of the referenced stream (the ref itself is not
nulled), detach the preview. -/
def unmount (flush : Option Chunk) (s : RecState) : RecState :=
  let s1 := { s with timerCaptured := none }
  let s2 := match s1.mediaRecorder with
    | some st => if st ≠ MRState.inactive then mrStop flush s1 else s1
    | none => s1
  let s3 := match s2.streamRef with
    | some i => { s2 with streams := releaseStream s2.streams i }
    | none => s2
  { s3 with liveVideoSrc := none }

/-- External events driving one recorder component. -/
inductive REvent where
  | startEv (rt : Runtime) (gumOk ctorOk : Bool)
  | tickEv
  | dataEv (c : Chunk)
  | pauseEv
  | resumeEv
  | stopEv (flush : Option Chunk)
  | unmountEv (flush : Option Chunk)

/-- Dispatch one event. -/
def rstep (e : REvent) (s : RecState) : RecState :=
  match e with
  | REvent.startEv rt g c => start rt g c s
  | REvent.tickEv => tick s
  | REvent.dataEv c => dataAvailable c s
  | REvent.pauseEv => pause s
  | REvent.resumeEv => resume s
  | REvent.stopEv f => stop f s
  | REvent.unmountEv f => unmount f s

/-- Run a trace of recorder events. -/
def runRec (evs : List REvent) (s : RecState) : RecState :=
  evs.foldl (fun t e => rstep e t) s

/-- A runtime on which everything is supported. -/
def rtAll : Runtime := ⟨true, fun _ => true⟩

/-!
The QR recognition loop (the SCAN effect of part_002 / App.jsx).  One
iteration of `loop` samples the current frame and runs `jsQR` over it;
the decode outcome is abstracted per frame.
-/

/-- Outcome of one decode attempt: `ok (some p)` when `jsQR` returns a
code with payload `p`, `ok none` when it returns no code, `throws` when
the attempt raises on malformed frame data. -/
inductive FrameResult where
  | ok (payload : Option String)
  | throws
deriving DecidableEq

/-- State of the scan screen effect: the device-stream world, the
`streamRef`, whether an animation-frame callback is currently scheduled
(`rafPending`), the redirect scheduled by the success path's
`setTimeout` but not yet fired (`pendingRedirect`), the history of
Redirect Sink invocations (`window.location.href` assignments), and the
`cameraAllowed` flag. -/
structure ScanState where
  streams : List Bool
  streamRef : Option Nat
  rafPending : Bool
  pendingRedirect : Option String
  redirects : List String
  cameraAllowed : Bool
deriving DecidableEq

/-- Initial scan-screen state. -/
def scanInit : ScanState :=
  { streams := [], streamRef := none, rafPending := false,
    pendingRedirect := none, redirects := [], cameraAllowed := false }

/-- The SCAN effect's `start` (part_002 lines 78-121): on success the
stream is acquired and referenced, the preview is attached, and the
first animation frame is requested; on `getUserMedia` rejection only
`cameraAllowed` is cleared.  `videoRef` is modelled as mounted and
`play()` as resolving. -/
def scanStart (gumOk : Bool) (s : ScanState) : ScanState :=
  if gumOk then
    let id := s.streams.length
    { s with streams := s.streams ++ [true], streamRef := some id,
             cameraAllowed := true, rafPending := true }
  else { s with cameraAllowed := false }

/-- Body of `loop` (part_002 lines 90-116), run when a scheduled frame
fires.  On a decoded code: stop the closure's stream tracks, cancel the
(already fired) frame request, schedule the redirect 150 ms later, and
return without requesting another frame.  On no code: request the next
frame.  On a throwing decode: the exception escapes the callback before
the `requestAnimationFrame` line, so nothing is updated and no further
frame is requested. -/
def loopStep (fr : FrameResult) (s : ScanState) : ScanState :=
  match fr with
  | FrameResult.throws => { s with rafPending := false }
  | FrameResult.ok none => { s with rafPending := true }
  | FrameResult.ok (some p) =>
      let streams := match s.streamRef with
        | some i => releaseStream s.streams i
        | none => s.streams
      { s with streams := streams, rafPending := false,
               pendingRedirect := some p }

/-- The scheduled `setTimeout` firing: assign `window.location.href`,
i.e. invoke the Redirect Sink with the decoded payload. -/
def timeoutFire (s : ScanState) : ScanState :=
  match s.pendingRedirect with
  | some p => { s with pendingRedirect := none, redirects := s.redirects ++ [p] }
  | none => s

/-- The SCAN effect cleanup (part_002 lines 125-132), the loop's cancel:
`cancelAnimationFrame` plus stopping every track of the referenced
stream.  The pending redirect timeout is NOT cleared and `streamRef` is
not nulled. -/
def scanCleanup (s : ScanState) : ScanState :=
  let streams := match s.streamRef with
    | some i => releaseStream s.streams i
    | none => s.streams
  { s with rafPending := false, streams := streams }

/-- Events hitting the scan screen after activation: a scheduled frame
firing (a no-op when no frame is scheduled, per `cancelAnimationFrame`),
the redirect timeout expiring, and the cleanup/cancel. -/
inductive SEvent where
  | frame (fr : FrameResult)
  | timeout
  | cancelEv
deriving DecidableEq

/-- Is this event the redirect timeout expiring? -/
def isTimeoutEv : SEvent → Bool
  | SEvent.timeout => true
  | _ => false

/-- Dispatch one scan event. -/
def sstep (e : SEvent) (s : ScanState) : ScanState :=
  match e with
  | SEvent.frame fr => if s.rafPending then loopStep fr s else s
  | SEvent.timeout => timeoutFire s
  | SEvent.cancelEv => scanCleanup s

/-- Run a trace of scan events. -/
def runScan (evs : List SEvent) (s : ScanState) : ScanState :=
  evs.foldl (fun t e => sstep e t) s

/-- A runtime that reports support only for the plain audio container. -/
def rtOnlyPlainAudio : Runtime := ⟨true, fun t => t == "audio/webm"⟩

/-- A scan loop with no frame scheduled and no redirect pending: nothing
the loop does can ever invoke the Redirect Sink again. -/
def DeadScan (s : ScanState) : Prop :=
  s.rafPending = false ∧ s.pendingRedirect = none

/-- The spec scenario stage: an activated loop after three frames that
decode to nothing. -/
def c5scene : ScanState :=
  runScan (List.replicate 3 (SEvent.frame (FrameResult.ok none))) (scanStart true scanInit)

/-!
Helper lemmas.
-/

/-- Normal form of the registered data handler: append the chunk iff it
is nonempty. -/
theorem handleData_eq (c : Chunk) (s : RecState) :
    handleData c s = { s with chunks := s.chunks ++ if 0 < c.data.length then [c] else [] } := by
  unfold handleData
  split <;> simp

/-- Folding timeslice deliveries over a recording state appends exactly
the nonempty chunks, in arrival order, and touches nothing else. -/
theorem foldData_eq (cs : List Chunk) : ∀ (s : RecState),
    s.mediaRecorder = some MRState.recording →
    List.foldl (fun t c => dataAvailable c t) s cs =
      { s with chunks := s.chunks ++ cs.filter (fun c => 0 < c.data.length) } := by
  induction cs with
  | nil =>
      intro s _
      simp
  | cons c cs ih =>
      intro s h
      have hd : dataAvailable c s =
          { s with chunks := s.chunks ++ if 0 < c.data.length then [c] else [] } := by
        rw [dataAvailable, if_pos h, handleData_eq]
      rw [List.foldl_cons, hd, ih _ (by simpa using h)]
      by_cases hc : 0 < c.data.length <;> simp [hc]

/-- Claim C1 (code bug witness): running the spec scenario — start, five
ticks while Recording, pause, three ticks while Paused, resume, two more
ticks, stop — ends with `seconds = 10`, not the specified 7, and the
middle three ticks really are delivered in the Paused state.  The
interval callback closes over the `isPaused` binding captured when
`start` ran (always `false`), so ticks during Paused still increment. -/
theorem c1_pause_ticks_still_increment :
    (runRec ([REvent.startEv rtAll true true] ++ List.replicate 5 REvent.tickEv
        ++ [REvent.pauseEv]) (recInit Mode.audio)).isPaused = true ∧
    (runRec ([REvent.startEv rtAll true true] ++ List.replicate 5 REvent.tickEv
        ++ [REvent.pauseEv]) (recInit Mode.audio)).mediaRecorder = some MRState.paused ∧
    (runRec ([REvent.startEv rtAll true true] ++ List.replicate 5 REvent.tickEv
        ++ [REvent.pauseEv]) (recInit Mode.audio)).seconds = 5 ∧
    (runRec ([REvent.startEv rtAll true true] ++ List.replicate 5 REvent.tickEv
        ++ [REvent.pauseEv] ++ List.replicate 3 REvent.tickEv ++ [REvent.resumeEv]
        ++ List.replicate 2 REvent.tickEv ++ [REvent.stopEv none])
        (recInit Mode.audio)).seconds = 10 ∧
    (runRec ([REvent.startEv rtAll true true] ++ List.replicate 5 REvent.tickEv
        ++ [REvent.pauseEv] ++ List.replicate 3 REvent.tickEv ++ [REvent.resumeEv]
        ++ List.replicate 2 REvent.tickEv ++ [REvent.stopEv none])
        (recInit Mode.audio)).isRecording = false := by
  decide

/-- Claim C3, counterexample: when `getUserMedia` succeeds but the
recorder constructor then throws, `start` returns from its `catch` with
the freshly acquired stream still live — the device resource is not
released on this acquisition-time error path. -/
theorem c3_error_path_keeps_stream_live :
    (start rtAll true false (recInit Mode.audio)).streams = [true] ∧
    (start rtAll true false (recInit Mode.audio)).streamRef = some 0 ∧
    (start rtAll true false (recInit Mode.audio)).isRecording = false ∧
    (start rtAll true false (recInit Mode.audio)).mediaRecorder = none := by
  decide

/-- Claim C3, amended: the referenced stream is released (every track
stopped) on explicit `stop` and on unmount teardown; an acquisition-time
error after the stream was acquired leaves the stream live but still
owned through `streamRef`, and a subsequent `stop` releases it. -/
theorem c3_release_on_stop_and_teardown (s : RecState) (f : Option Chunk) (i : Nat)
    (rt : Runtime) (href : s.streamRef = some i) (hlen : i < s.streams.length) :
    (stop f s).streams[i]? = some false ∧
    (unmount f s).streams[i]? = some false ∧
    (start rt true false s).streamRef = some s.streams.length ∧
    (start rt true false s).streams[s.streams.length]? = some true ∧
    (stop f (start rt true false s)).streams[s.streams.length]? = some false := by
  cases s with
  | mk streams mr mime chunks sref mode isRec isP secs blob timer lv =>
    simp only at href
    subst href
    cases f <;> cases isRec <;> cases mr <;> cases mode <;>
      simp [stop, unmount, start, resetRecording, mrStop, onstopHandler,
        handleData_eq, releaseStream, pickMimeType, List.getElem?_set_self', hlen,
        List.getElem?_concat_length, Nat.lt_succ_self, apply_ite RecState.streamRef,
        apply_ite RecState.streams]

/-- Witness for C3 at a concrete session: an audio session whose stream
is index 0. -/
theorem c3_release_on_stop_and_teardown_witness :
    (stop none (start rtAll true true (recInit Mode.audio))).streams[0]? = some false ∧
    (unmount none (start rtAll true true (recInit Mode.audio))).streams[0]? = some false ∧
    (start rtAll true false (start rtAll true true (recInit Mode.audio))).streamRef = some 1 ∧
    (start rtAll true false (start rtAll true true (recInit Mode.audio))).streams[1]? = some true ∧
    (stop none (start rtAll true false (start rtAll true true (recInit Mode.audio)))).streams[1]? =
      some false :=
  c3_release_on_stop_and_teardown (start rtAll true true (recInit Mode.audio)) none 0 rtAll
    (by decide) (by decide)

/-- Claim C6: `stop` is idempotent — a second `stop` after any first
`stop` changes nothing, so both invocations leave the same finished
blob, timer, and session state. -/
theorem c6_stop_idempotent (f1 f2 : Option Chunk) (s : RecState) :
    stop f2 (stop f1 s) = stop f1 s := by
  cases s with
  | mk streams mr mime chunks sref mode isRec isP secs blob timer lv =>
    cases f1 <;> cases isRec <;> cases mr <;> cases sref <;>
      simp [stop, mrStop, onstopHandler, handleData_eq, releaseStream]

/-- Claim C10: `pause` and `resume` are silent no-ops when the recorder
is absent or not in the corresponding state — the whole session state is
returned unchanged. -/
theorem c10_pause_resume_noop (s : RecState) :
    (s.mediaRecorder = none → pause s = s ∧ resume s = s) ∧
    (∀ st, s.mediaRecorder = some st → st ≠ MRState.recording → pause s = s) ∧
    (∀ st, s.mediaRecorder = some st → st ≠ MRState.paused → resume s = s) := by
  refine ⟨fun h => ⟨?_, ?_⟩, fun st h hne => ?_, fun st h hne => ?_⟩ <;>
    simp [pause, resume, h] <;> intro hEq <;> simp [hEq] at hne

/-- Witness for C10 on the fresh component state, which has no recorder. -/
theorem c10_pause_resume_noop_witness :
    pause (recInit Mode.audio) = recInit Mode.audio ∧
    resume (recInit Mode.audio) = recInit Mode.audio :=
  (c10_pause_resume_noop (recInit Mode.audio)).1 rfl

/-- First-match characterization of `List.find?`: a hit is an element of
the list satisfying the predicate such that every earlier element fails
it; a miss means every element fails it. -/
theorem find?_first {α : Type} (p : α → Bool) :
    ∀ (l : List α) (t : α), l.find? p = some t →
      ∃ i : Nat, l[i]? = some t ∧ p t = true ∧
        ∀ j : Nat, j < i → ∀ u, l[j]? = some u → p u = false := by
  intro l
  induction l with
  | nil => simp
  | cons a l ih =>
      intro t h
      by_cases hp : p a
      · rw [List.find?_cons_of_pos _ hp] at h
        rcases h with ⟨⟩
        exact ⟨0, by simp, hp, fun j hj => absurd hj (Nat.not_lt_zero j)⟩
      · rw [List.find?_cons_of_neg _ (by simpa using hp)] at h
        obtain ⟨i, h1, h2, h3⟩ := ih t h
        refine ⟨i + 1, by simpa using h1, h2, ?_⟩
        intro j hj u hu
        cases j with
        | zero =>
            simp at hu
            subst hu
            simpa using hp
        | succ j =>
            exact h3 j (Nat.lt_of_succ_lt_succ hj) u (by simpa using hu)

/-- One step preserves deadness and cannot add a redirect. -/
theorem dead_step (e : SEvent) (s : ScanState) (h : DeadScan s) :
    DeadScan (sstep e s) ∧ (sstep e s).redirects = s.redirects := by
  obtain ⟨h1, h2⟩ := h
  cases e <;> simp [sstep, h1, h2, timeoutFire, scanCleanup, DeadScan]

/-- A dead loop stays dead, with its redirect history frozen, under any
subsequent trace of frame, timer, and cancel events. -/
theorem dead_run (evs : List SEvent) : ∀ s : ScanState, DeadScan s →
    DeadScan (runScan evs s) ∧ (runScan evs s).redirects = s.redirects := by
  induction evs with
  | nil => intro s h; exact ⟨h, rfl⟩
  | cons e evs ih =>
      intro s h
      obtain ⟨hD, hR⟩ := dead_step e s h
      obtain ⟨hD2, hR2⟩ := ih _ hD
      exact ⟨hD2, by rw [runScan] at hR2 ⊢; simp only [List.foldl_cons] at *; rw [hR2, hR]⟩

/-- With no frame scheduled and one redirect pending, any subsequent
trace emits that payload exactly when it contains the timer expiry, and
never reschedules a frame. -/
theorem pending_run (evs : List SEvent) : ∀ (s : ScanState) (p : String),
    s.rafPending = false → s.pendingRedirect = some p →
    (runScan evs s).redirects = s.redirects ++ (if evs.any isTimeoutEv then [p] else []) ∧
    (runScan evs s).rafPending = false := by
  induction evs with
  | nil => intro s p h1 _; simp [runScan, h1]
  | cons e evs ih =>
      intro s p h1 h2
      cases e with
      | frame fr =>
          have hs : sstep (SEvent.frame fr) s = s := by simp [sstep, h1]
          have hx := ih s p h1 h2
          simpa [runScan, List.foldl_cons, hs, List.any_cons, isTimeoutEv] using hx
      | cancelEv =>
          have hx := ih (scanCleanup s) p (by simp [scanCleanup]) (by simp [scanCleanup, h2])
          simpa [runScan, List.foldl_cons, sstep, List.any_cons, isTimeoutEv, scanCleanup] using hx
      | timeout =>
          have hs : sstep SEvent.timeout s =
              { s with pendingRedirect := none, redirects := s.redirects ++ [p] } := by
            simp [sstep, timeoutFire, h2]
          have hd : DeadScan (sstep SEvent.timeout s) := by rw [hs]; exact ⟨h1, rfl⟩
          obtain ⟨⟨hD1, _⟩, hR⟩ := dead_run evs _ hd
          constructor
          · rw [runScan, List.foldl_cons]
            rw [show (List.foldl (fun t e => sstep e t) (sstep SEvent.timeout s) evs) =
              runScan evs (sstep SEvent.timeout s) from rfl]
            rw [hR, hs]
            simp [isTimeoutEv]
          · rw [runScan, List.foldl_cons]
            rw [show (List.foldl (fun t e => sstep e t) (sstep SEvent.timeout s) evs) =
              runScan evs (sstep SEvent.timeout s) from rfl]
            exact hD1

/-- Claim C2, counterexample: a decode succeeds, then the cancel/cleanup
runs.  At the moment cancel returns no redirect has occurred, yet the
150 ms redirect timeout scheduled by the decode was not cleared, and its
later expiry invokes the Redirect Sink after cancellation. -/
theorem c2_redirect_after_cancel :
    (runScan [SEvent.frame (FrameResult.ok (some "https://example.test/room")), SEvent.cancelEv]
      (scanStart true scanInit)).redirects = [] ∧
    (runScan [SEvent.frame (FrameResult.ok (some "https://example.test/room")), SEvent.cancelEv,
      SEvent.timeout] (scanStart true scanInit)).redirects = ["https://example.test/room"] := by
  decide

/-- Claim C2, amended: cancel releases the video resource, schedules no
further sampling iterations, and — provided no decode had already
succeeded (no redirect pending) — no Redirect Sink invocation ever
occurs after the call returns; a redirect already scheduled by a
pre-cancel decode is not prevented. -/
theorem c2_cancel_no_new_redirects (s : ScanState) (evs : List SEvent) (i : Nat)
    (h : s.pendingRedirect = none) (h3 : s.streamRef = some i) (h4 : i < s.streams.length) :
    (scanCleanup s).streams[i]? = some false ∧
    (scanCleanup s).redirects = s.redirects ∧
    (runScan evs (scanCleanup s)).redirects = s.redirects ∧
    (runScan evs (scanCleanup s)).rafPending = false := by
  have hd : DeadScan (scanCleanup s) := ⟨rfl, by simp [scanCleanup, h]⟩
  obtain ⟨⟨hD1, _⟩, hR⟩ := dead_run evs _ hd
  refine ⟨?_, rfl, ?_, hD1⟩
  · simp [scanCleanup, h3, releaseStream, List.getElem?_set_self', h4]
  · rw [hR]
    rfl

/-- Witness for C2 on a freshly activated loop cancelled before any
decode: even a late decode-like frame and a timer expiry produce no
redirect. -/
theorem c2_cancel_no_new_redirects_witness :
    (scanCleanup (scanStart true scanInit)).streams[0]? = some false ∧
    (scanCleanup (scanStart true scanInit)).redirects = [] ∧
    (runScan [SEvent.frame (FrameResult.ok (some "late")), SEvent.timeout]
      (scanCleanup (scanStart true scanInit))).redirects = [] ∧
    (runScan [SEvent.frame (FrameResult.ok (some "late")), SEvent.timeout]
      (scanCleanup (scanStart true scanInit))).rafPending = false :=
  c2_cancel_no_new_redirects (scanStart true scanInit)
    [SEvent.frame (FrameResult.ok (some "late")), SEvent.timeout] 0
    (by decide) (by decide) (by decide)

/-- Claim C4: for any chunks delivered during a recording (plus the
optional final flush), the finished blob payload is the concatenation,
in arrival order, of exactly the delivered chunks, with zero-length
chunks excluded. -/
theorem c4_payload_is_ordered_concat (rt : Runtime) (m : Mode) (cs : List Chunk)
    (f : Option Chunk) :
    (stop f (List.foldl (fun t c => dataAvailable c t) (start rt true true (recInit m)) cs)).blob =
      some ⟨if m = Mode.video then "video/webm" else "audio/webm",
            (((cs ++ f.toList).filter fun c => 0 < c.data.length).map Chunk.data).flatten⟩ := by
  cases m <;> cases f <;>
    rw [foldData_eq cs _ (by rfl)] <;>
    simp [stop, start, resetRecording, recInit, mrStop, onstopHandler, handleData_eq,
      List.filter_append, List.filter_cons]

/-- Claim C5: once a frame decodes successfully, the loop schedules no
further sampling iteration, releases the video stream, and schedules the
decoded payload as the one redirect; over any subsequent trace the
Redirect Sink is invoked exactly once (when the timer fires) with that
payload and never a second time from the same activation. -/
theorem c5_single_emission (s : ScanState) (p : String) (i : Nat) (evs : List SEvent)
    (h1 : s.rafPending = true) (h2 : s.pendingRedirect = none)
    (h3 : s.streamRef = some i) (h4 : i < s.streams.length) :
    (sstep (SEvent.frame (FrameResult.ok (some p))) s).rafPending = false ∧
    (sstep (SEvent.frame (FrameResult.ok (some p))) s).streams[i]? = some false ∧
    (sstep (SEvent.frame (FrameResult.ok (some p))) s).pendingRedirect = some p ∧
    (runScan evs (sstep (SEvent.frame (FrameResult.ok (some p))) s)).redirects =
      s.redirects ++ (if evs.any isTimeoutEv then [p] else []) ∧
    (runScan evs (sstep (SEvent.frame (FrameResult.ok (some p))) s)).rafPending = false := by
  have hs : sstep (SEvent.frame (FrameResult.ok (some p))) s =
      { s with streams := releaseStream s.streams i, rafPending := false,
               pendingRedirect := some p } := by
    simp [sstep, h1, loopStep, h3]
  rw [hs]
  obtain ⟨hR, hP⟩ := pending_run evs
    { s with streams := releaseStream s.streams i, rafPending := false,
             pendingRedirect := some p } p rfl rfl
  exact ⟨rfl, by simp [releaseStream, List.getElem?_set_self', h4], rfl, hR, hP⟩

/-- Witness for C5 on the spec scenario: success on the fourth sample,
then the timer fires — exactly one redirect, stream released. -/
theorem c5_single_emission_witness :
    (sstep (SEvent.frame (FrameResult.ok (some "ROOM"))) c5scene).rafPending = false ∧
    (sstep (SEvent.frame (FrameResult.ok (some "ROOM"))) c5scene).streams[0]? = some false ∧
    (sstep (SEvent.frame (FrameResult.ok (some "ROOM"))) c5scene).pendingRedirect = some "ROOM" ∧
    (runScan [SEvent.timeout]
      (sstep (SEvent.frame (FrameResult.ok (some "ROOM"))) c5scene)).redirects = ["ROOM"] ∧
    (runScan [SEvent.timeout]
      (sstep (SEvent.frame (FrameResult.ok (some "ROOM"))) c5scene)).rafPending = false :=
  c5_single_emission c5scene "ROOM" 0 [SEvent.timeout]
    (by decide) (by decide) (by decide) (by decide)

/-- Claim C7: the Codec Negotiator returns the first entry of the kind's
ordered preference list that the runtime reports as supported; when no
entry is supported it returns the platform-default marker (`none`); as a
total function it never raises. -/
theorem c7_first_supported (rt : Runtime) (k : Mode) :
    (∀ t, pickMimeType rt k = some t →
        ∃ i : Nat, (candidatesFor k)[i]? = some t ∧
          (rt.hasMediaRecorder && rt.isTypeSupported t) = true ∧
          ∀ j : Nat, j < i → ∀ u, (candidatesFor k)[j]? = some u →
            (rt.hasMediaRecorder && rt.isTypeSupported u) = false) ∧
    (pickMimeType rt k = none →
        ∀ t ∈ candidatesFor k, (rt.hasMediaRecorder && rt.isTypeSupported t) = false) := by
  constructor
  · intro t h
    exact find?_first _ _ t h
  · intro h t ht
    have hx := List.find?_eq_none.mp h t ht
    simpa using hx

/-- Witness for C7 on a runtime supporting only plain `audio/webm`: the
negotiator skips the unsupported first candidate and returns the second. -/
theorem c7_first_supported_witness :
    ∃ i : Nat, (candidatesFor Mode.audio)[i]? = some "audio/webm" ∧
      (rtOnlyPlainAudio.hasMediaRecorder && rtOnlyPlainAudio.isTypeSupported "audio/webm") = true ∧
      ∀ j : Nat, j < i → ∀ u, (candidatesFor Mode.audio)[j]? = some u →
        (rtOnlyPlainAudio.hasMediaRecorder && rtOnlyPlainAudio.isTypeSupported u) = false :=
  (c7_first_supported rtOnlyPlainAudio Mode.audio).1 "audio/webm" (by decide)

/-- Claim C8, counterexample: on a runtime supporting every candidate
the negotiator picks `video/webm;codecs=vp9,opus`, yet the artifact the
session finishes with is tagged plain `video/webm` — not the negotiated
string with its codec parameters. -/
theorem c8_mime_counterexample :
    pickMimeType rtAll Mode.video = some "video/webm;codecs=vp9,opus" ∧
    (stop none (start rtAll true true (recInit Mode.video))).blob = some ⟨"video/webm", []⟩ ∧
    ("video/webm" : String) ≠ "video/webm;codecs=vp9,opus" := by
  decide

/-- Claim C8, amended: the finished artifact is tagged with the fixed
kind-based container type — `video/webm` for video, `audio/webm` for
audio — regardless of which candidate the Codec Negotiator selected. -/
theorem c8_fixed_container_mime (rt : Runtime) (m : Mode) (cs : List Chunk)
    (f : Option Chunk) :
    ((stop f (List.foldl (fun t c => dataAvailable c t) (start rt true true (recInit m)) cs)).blob).map
      Artifact.mimeType = some (if m = Mode.video then "video/webm" else "audio/webm") := by
  cases m <;> cases f <;>
    rw [foldData_eq cs _ (by rfl)] <;>
    simp [stop, start, resetRecording, recInit, mrStop, onstopHandler, handleData_eq]

/-- Claim C9, counterexample: a throwing decode leaves no next iteration
scheduled, unlike an ordinary decode failure which does; afterwards even
a decodable frame and a timer expiry produce no redirect — the throw is
fatal to the loop, not treated as a failure that continues scanning. -/
theorem c9_throw_stops_loop :
    (sstep (SEvent.frame FrameResult.throws) (scanStart true scanInit)).rafPending = false ∧
    (sstep (SEvent.frame (FrameResult.ok none)) (scanStart true scanInit)).rafPending = true ∧
    (runScan [SEvent.frame FrameResult.throws, SEvent.frame (FrameResult.ok (some "x")),
      SEvent.timeout] (scanStart true scanInit)).redirects = [] := by
  decide

/-- Claim C9, amended: a decode attempt that throws terminates the loop:
the exception escapes the iteration before the next frame is requested,
every other piece of state is left unchanged, and (with no redirect
already pending) no further iteration runs and no redirect ever occurs. -/
theorem c9_throw_is_fatal (s : ScanState) (evs : List SEvent)
    (h1 : s.rafPending = true) (h2 : s.pendingRedirect = none) :
    sstep (SEvent.frame FrameResult.throws) s = { s with rafPending := false } ∧
    (runScan evs (sstep (SEvent.frame FrameResult.throws) s)).redirects = s.redirects ∧
    (runScan evs (sstep (SEvent.frame FrameResult.throws) s)).rafPending = false := by
  have hs : sstep (SEvent.frame FrameResult.throws) s = { s with rafPending := false } := by
    simp [sstep, h1, loopStep]
  rw [hs]
  obtain ⟨⟨hD1, _⟩, hR⟩ := dead_run evs { s with rafPending := false } ⟨rfl, h2⟩
  exact ⟨rfl, by rw [hR], hD1⟩

/-- Witness for C9 on a freshly activated loop hit by a throwing frame. -/
theorem c9_throw_is_fatal_witness :
    sstep (SEvent.frame FrameResult.throws) (scanStart true scanInit) =
      { scanStart true scanInit with rafPending := false } ∧
    (runScan [SEvent.frame (FrameResult.ok (some "x")), SEvent.timeout]
      (sstep (SEvent.frame FrameResult.throws) (scanStart true scanInit))).redirects = [] ∧
    (runScan [SEvent.frame (FrameResult.ok (some "x")), SEvent.timeout]
      (sstep (SEvent.frame FrameResult.throws) (scanStart true scanInit))).rafPending = false :=
  c9_throw_is_fatal (scanStart true scanInit)
    [SEvent.frame (FrameResult.ok (some "x")), SEvent.timeout] (by decide) (by decide)
